import Mathlib

/-!
Verification of the audio-go stream-transcoding engine against its
natural-language specification.

The Go sources (packages `formats`, `stream`, `file`, `utils`) are given a
shallow embedding: pure configuration logic becomes Lean functions over the
same record types; Go `int` fields become `Int`; Go slices become `List`;
fallible file-mode builders return `Option`; the process-lifecycle operations
(`Run`, `Wait`, `WriteTo`, `ReadFrom`) become functions on explicit states
describing the pipe ends a handle owns and the observations `Wait` makes.
-/

namespace formats

/-- Audio file format tag (Go: `type AudioFileFormat string`).  We keep it as a
plain string, as the source does. -/
abbrev AudioFileFormat := String

/-- Format constants from `formats.go` (those the embedded code paths read). -/
def WAV : AudioFileFormat := "wav"

def MP3 : AudioFileFormat := "mp3"

def G722 : AudioFileFormat := "g722"

/-- Note: in the source, the constant named `G729` carries the tag `"bit"`. -/
def G729 : AudioFileFormat := "bit"

def OPUS : AudioFileFormat := "opus"

def S16LE : AudioFileFormat := "s16le"

/-- Operation type constants. -/
def FORMATCONVERT : String := "FormatConvert"

def CHANNELSPLIT : String := "ChannelSplit"

def AUDIOMERGE : String := "AudioMerge"

/-- Go: `type MergeMode int` with `Mix` and `SideBySide`. -/
inductive MergeMode where
  | Mix : MergeMode
  | SideBySide : MergeMode
deriving DecidableEq, Repr

/-- Go: `type AudioArgs struct { AudioFileFormat; SampleRate int; Channels int }`. -/
structure AudioArgs where
  AudioFileFormat : AudioFileFormat
  SampleRate : Int
  Channels : Int
deriving DecidableEq, Repr

/-- The zero value of `AudioArgs` (Go: `AudioArgs{}`). -/
def zeroArgs : AudioArgs := { AudioFileFormat := "", SampleRate := 0, Channels := 0 }

/-- Go: `type AudioConfig struct { ... }`.  The `FilterString` field backs
`GetFilterString`, which `builder.go` and `file.go` call but whose definition
is not among the given sources; see `AudioConfig.GetFilterString`. -/
structure AudioConfig where
  InputArgs : List AudioArgs
  OutputArgs : List AudioArgs
  OpType : String
  MergeMode : MergeMode
  InputFiles : List String
  OutputFiles : List String
  FilterString : String
deriving DecidableEq, Repr

/-- Modelled from the spec: `GetFilterString` is called by the builders but its
definition is not among the given source files; per the spec a Descriptor may
carry "a caller-supplied custom filter string", which this accessor returns
(empty string when none was supplied). -/
def AudioConfig.GetFilterString (c : AudioConfig) : String := c.FilterString

/-- Go: `IsRawPCM(fmt AudioFileFormat) bool`. -/
def IsRawPCM (f : AudioFileFormat) : Bool :=
  f ≠ WAV && f ≠ MP3 && f ≠ G722 && f ≠ G729 && f ≠ OPUS

/-- Go: `(c *AudioConfig) GetInputArg(index int) AudioArgs`.  The embedding
takes the index as `Nat`: every call site in the repository passes a
non-negative index (loop counters and the literals 0/1). -/
def AudioConfig.GetInputArg (c : AudioConfig) (index : Nat) : AudioArgs :=
  if c.InputArgs.length = 0 then zeroArgs
  else if c.InputArgs.length = 1 then c.InputArgs.getD 0 zeroArgs
  else if index < c.InputArgs.length then c.InputArgs.getD index zeroArgs
  else c.InputArgs.getD (c.InputArgs.length - 1) zeroArgs

/-- Go: `(c *AudioConfig) GetOutputArg(index int) AudioArgs`. -/
def AudioConfig.GetOutputArg (c : AudioConfig) (index : Nat) : AudioArgs :=
  if c.OutputArgs.length = 0 then zeroArgs
  else if c.OutputArgs.length = 1 then c.OutputArgs.getD 0 zeroArgs
  else if index < c.OutputArgs.length then c.OutputArgs.getD index zeroArgs
  else c.OutputArgs.getD (c.OutputArgs.length - 1) zeroArgs

/-- Per-entry defaulting done by the loops in `SetDefaults`. -/
def dfltArgs (a : AudioArgs) : AudioArgs :=
  { a with
    SampleRate := if a.SampleRate ≤ 0 then 8000 else a.SampleRate
    Channels := if a.Channels ≤ 0 then 1 else a.Channels }

/-- Go: `(c *AudioConfig) SetDefaults()`.  The embedding returns the updated
configuration instead of mutating in place. -/
def AudioConfig.SetDefaults (c : AudioConfig) : AudioConfig :=
  let opType := if c.OpType = "" then FORMATCONVERT else c.OpType
  let ins := if c.InputArgs.length = 0 then c.InputArgs ++ [zeroArgs] else c.InputArgs
  let outs := if c.OutputArgs.length = 0 then c.OutputArgs ++ [zeroArgs] else c.OutputArgs
  { c with OpType := opType, InputArgs := ins.map dfltArgs, OutputArgs := outs.map dfltArgs }

/-- Go: `(a *AudioArgs) check(label string, required bool) error`.
`none` models a nil error. -/
def AudioArgs.check (a : AudioArgs) (label : String) (required : Bool) : Option String :=
  if a.AudioFileFormat = "" then some (label ++ ": AudioFileFormat is missing")
  else if required then
    if a.SampleRate ≤ 0 then some (label ++ ": SampleRate is required for raw formats or output")
    else if a.Channels ≤ 0 then some (label ++ ": Channels is required for raw formats or output")
    else none
  else none

/-- The input-validation loop of `Validate` (step 2): first error wins. -/
def inputsErr (c : AudioConfig) : Option String :=
  (List.range c.InputArgs.length).findSome? fun i =>
    (c.GetInputArg i).check ("InputArgs[" ++ toString i ++ "]") (IsRawPCM (c.GetInputArg i).AudioFileFormat)

/-- The output-validation loop of `Validate` (step 3): first error wins. -/
def outputsErr (c : AudioConfig) : Option String :=
  (List.range c.OutputArgs.length).findSome? fun i =>
    (c.GetOutputArg i).check ("OutputArgs[" ++ toString i ++ "]") true

/-- The `AUDIOMERGE` branch of `Validate` (step 4): output stereo under
`SideBySide`, then inputs 0 and 1 must be mono under `SideBySide`. -/
def mergeBranch (c : AudioConfig) : Option String :=
  if c.MergeMode = MergeMode.SideBySide ∧ (c.GetOutputArg 0).Channels ≠ 2 then
    some "SideBySide MergeMode requires OutputArgs.Channels to be 2"
  else
    (List.range 2).findSome? fun i =>
      if (c.GetInputArg i).Channels > 1 ∧ c.MergeMode = MergeMode.SideBySide then
        some ("input " ++ toString i ++ " must be Mono (Channels=1) for SideBySide Merge")
      else none

/-- The `CHANNELSPLIT` branch of `Validate` (step 4).  Note the second guard
is the source's literal `len(c.OutputArgs) > 1 && len(c.OutputArgs) < 2`. -/
def splitBranch (c : AudioConfig) : Option String :=
  if (c.GetInputArg 0).Channels ≠ 2 then
    some "CHANNELSPLIT requires input channels to be 2 (Stereo)"
  else if c.OutputArgs.length > 1 ∧ c.OutputArgs.length < 2 then
    some "CHANNELSPLIT needs at least 2 OutputArgs for Left and Right channels"
  else none

/-- Go: `(c *AudioConfig) Validate() error`; `none` models a nil error. -/
def AudioConfig.Validate (c : AudioConfig) : Option String :=
  if c.OpType ≠ FORMATCONVERT ∧ c.OpType ≠ CHANNELSPLIT ∧ c.OpType ≠ AUDIOMERGE then
    some ("invalid OpType: " ++ c.OpType)
  else
    match inputsErr c with
    | some e => some e
    | none =>
      match outputsErr c with
      | some e => some e
      | none =>
        if c.OpType = CHANNELSPLIT then splitBranch c
        else if c.OpType = AUDIOMERGE then mergeBranch c
        else none

/-- Rendering of a Go `int` by `fmt.Sprintf("%d", ·)`. -/
def goInt (i : Int) : String := toString i

/-- Go `strings.HasPrefix`, phrased over character lists so the kernel can
evaluate it. -/
def goHasPrefix (s pre : String) : Bool := pre.toList.isPrefixOf s.toList

/-- Go: `BuildInputArgs(arg AudioArgs, source string) []string` (builder.go). -/
def BuildInputArgs (arg : AudioArgs) (source : String) : List String :=
  (if IsRawPCM arg.AudioFileFormat then ["-ar", goInt arg.SampleRate, "-ac", goInt arg.Channels] else [])
    ++ (if goHasPrefix source "pipe:" then ["-thread_queue_size", "1024"] else [])
    ++ ["-f", arg.AudioFileFormat, "-i", source]

/-- Go: `BuildOutputArgs(arg AudioArgs, target string) []string` (builder.go). -/
def BuildOutputArgs (arg : AudioArgs) (target : String) : List String :=
  ["-ar", goInt arg.SampleRate, "-ac", goInt arg.Channels, "-f", arg.AudioFileFormat, target]

/-- Go: `BuildFilterComplex(cfg *AudioConfig) (string, []string)` (builder.go). -/
def BuildFilterComplex (cfg : AudioConfig) : String × List String :=
  let custom := cfg.GetFilterString
  let targetOut := cfg.GetOutputArg 0
  if cfg.OpType = CHANNELSPLIT then
    let leftF := if custom ≠ "" then custom else "anull"
    let rightF := if custom ≠ "" then custom else "anull"
    ("[0:a]channelsplit=channel_layout=stereo[l][r]; [l]" ++ leftF ++ "[left]; [r]" ++ rightF ++ "[right]",
      ["[left]", "[right]"])
  else if cfg.OpType = AUDIOMERGE then
    let mergePart :=
      if cfg.MergeMode = MergeMode.SideBySide then
        "[0:a][1:a]join=inputs=2:channel_layout=stereo"
      else
        "[0:a][1:a]amix=inputs=2:duration=longest"
          ++ (if targetOut.Channels = 2 then ",pan=stereo|c0=c0|c1=c0" else "")
    if custom ≠ "" then
      (mergePart ++ "[tmp]; [tmp]" ++ custom ++ "[finalout]", ["[finalout]"])
    else
      (mergePart ++ "[out]", ["[out]"])
  else
    ("", [])

end formats

namespace stream

open formats

/-- The low-latency arguments `Init` seeds the builders with (stream.go). -/
def fastArgs : List String :=
  ["-analyzeduration", "0", "-probesize", "32", "-fflags", "+nobuffer", "-flags", "+low_delay"]

/-- Go: `(s *StreamHandle) buildConvertArgs(args []string) []string`. -/
def buildConvertArgs (c : AudioConfig) (args : List String) : List String :=
  let inA := c.GetInputArg 0
  let out := c.GetOutputArg 0
  ((args
      ++ (if IsRawPCM inA.AudioFileFormat then ["-ar", goInt inA.SampleRate, "-ac", goInt inA.Channels] else []))
      ++ ["-f", inA.AudioFileFormat, "-i", "pipe:0"]
      ++ ["-af", "aresample=" ++ goInt out.SampleRate])
    ++ ["-ar", goInt out.SampleRate, "-ac", goInt out.Channels, "-f", out.AudioFileFormat, "pipe:1"]

/-- The `-filter_complex` expression built inside `buildSplitArgs`
(`fmt.Sprintf` with the two output sample rates). -/
def splitFilterStr (c : AudioConfig) : String :=
  "[0:a]channelsplit=channel_layout=stereo[l][r]; [l]aresample=" ++ goInt (c.GetOutputArg 0).SampleRate
    ++ "[left]; [r]aresample=" ++ goInt (c.GetOutputArg 1).SampleRate ++ "[right]"

/-- Go: `(s *StreamHandle) buildSplitArgs(args []string) []string`. -/
def buildSplitArgs (c : AudioConfig) (args : List String) : List String :=
  let inA := c.GetInputArg 0
  let outL := c.GetOutputArg 0
  let outR := c.GetOutputArg 1
  ((((args
        ++ (if IsRawPCM inA.AudioFileFormat then ["-ar", goInt inA.SampleRate, "-ac", goInt inA.Channels] else []))
        ++ ["-f", inA.AudioFileFormat, "-i", "pipe:0"])
        ++ ["-filter_complex", splitFilterStr c])
        ++ ["-map", "[left]", "-ar", goInt outL.SampleRate, "-f", outL.AudioFileFormat, "pipe:1"])
    ++ ["-map", "[right]", "-ar", goInt outR.SampleRate, "-f", outR.AudioFileFormat, "pipe:3"]

/-- One iteration of the input loop in `buildMergeArgs`: input `i` reads from
`pipe:0` (i = 0) or `pipe:(i+2)` (i > 0). -/
def mergeInputChunk (c : AudioConfig) (i : Nat) : List String :=
  let inA := c.GetInputArg i
  let pipeIdx : Nat := if i > 0 then i + 2 else 0
  (if IsRawPCM inA.AudioFileFormat then ["-ar", goInt inA.SampleRate, "-ac", goInt inA.Channels] else [])
    ++ ["-thread_queue_size", "1024", "-f", inA.AudioFileFormat, "-i", "pipe:" ++ toString pipeIdx]

/-- The `-filter_complex` expression built inside `buildMergeArgs`. -/
def mergeFilterStr (c : AudioConfig) : String :=
  let targetOut := c.GetOutputArg 0
  ("[0:a]aresample=" ++ goInt targetOut.SampleRate ++ "[a0]; "
      ++ "[1:a]aresample=" ++ goInt targetOut.SampleRate ++ "[a1]; ")
    ++ (if c.MergeMode = MergeMode.SideBySide then
          "[a0][a1]join=inputs=2:channel_layout=stereo[out]"
        else
          "[a0][a1]amix=inputs=2:duration=longest[mixed]"
            ++ (if targetOut.Channels = 2 then "; [mixed]pan=stereo|c0=c0|c1=c0[out]"
                else "; [mixed]anull[out]"))

/-- Go: `(s *StreamHandle) buildMergeArgs(args []string) []string`
(`numInputs` is fixed at 2 in the source). -/
def buildMergeArgs (c : AudioConfig) (args : List String) : List String :=
  let targetOut := c.GetOutputArg 0
  ((args ++ mergeInputChunk c 0 ++ mergeInputChunk c 1)
      ++ ["-filter_complex", mergeFilterStr c, "-map", "[out]"])
    ++ ["-ar", goInt targetOut.SampleRate, "-ac", goInt targetOut.Channels,
        "-f", targetOut.AudioFileFormat, "pipe:1"]

/-- The pipe ends a stream handle can own or hand to the child process.
`stdin0`/`stdout0` are the parent ends of the standard pipes created by the
spawn primitive; the `split`/`merge` ends are the two ends of the extra
`os.Pipe` created in `setupPipes`. -/
inductive PipeEnd where
  | stdin0 : PipeEnd
  | stdout0 : PipeEnd
  | splitParentRead : PipeEnd
  | splitChildWrite : PipeEnd
  | mergeParentWrite : PipeEnd
  | mergeChildRead : PipeEnd
deriving DecidableEq, Repr

/-- The `s.stdins` list after `setupPipes` (stream.go): the standard input
end first, then — for Merge only — the write end of the extra pipe.  Entries
are `Option`s because the Go slices hold interface values that compare
against `nil`. -/
def setupStdins (c : AudioConfig) : List (Option PipeEnd) :=
  [some PipeEnd.stdin0] ++ (if c.OpType = AUDIOMERGE then [some PipeEnd.mergeParentWrite] else [])

/-- The `s.stdouts` list after `setupPipes`: the standard output end first,
then — for Split only — the read end of the extra pipe. -/
def setupStdouts (c : AudioConfig) : List (Option PipeEnd) :=
  [some PipeEnd.stdout0] ++ (if c.OpType = CHANNELSPLIT then [some PipeEnd.splitParentRead] else [])

/-- The `cmd.ExtraFiles` list after `setupPipes`: the child-owned end of the
extra pipe (write end for Split, read end for Merge). -/
def extraFiles (c : AudioConfig) : List PipeEnd :=
  (if c.OpType = CHANNELSPLIT then [PipeEnd.splitChildWrite] else [])
    ++ (if c.OpType = AUDIOMERGE then [PipeEnd.mergeChildRead] else [])

/-- Every pipe end the handle allocated: the parent-owned ends kept in the
input/output lists, and the child-owned extra-file ends. -/
def allocatedEnds (c : AudioConfig) : List PipeEnd :=
  (setupStdins c).filterMap id ++ (setupStdouts c).filterMap id ++ extraFiles c

/-- The set of pipe ends `Run` closes in the parent (stream.go): on spawn
success it closes each non-nil entry of `cmd.ExtraFiles`; on spawn failure it
calls `closeAllPipes`, which closes the entries of `s.stdins` and
`s.stdouts` and nothing else. -/
def runClosedEnds (c : AudioConfig) (spawnOk : Bool) : List PipeEnd :=
  if spawnOk then extraFiles c
  else (setupStdins c).filterMap id ++ (setupStdouts c).filterMap id

/-- Outcome of `WriteTo` (stream.go).  `passthrough p` models the direct
`s.stdins[index].Write(data)` against parent-owned end `p`; `errIdx i` the
returned `fmt.Errorf("stdin index %d out of range", i)`; `panik` the Go
runtime panic raised by indexing a slice with a negative index. -/
inductive WriteOutcome where
  | passthrough : PipeEnd → WriteOutcome
  | errIdx : Int → WriteOutcome
  | panik : WriteOutcome
deriving DecidableEq, Repr

/-- Go: `(s *StreamHandle) WriteTo(index int, data []byte) error`.  The guard
is the source's `index < len(s.stdins) && s.stdins[index] != nil`; the `&&`
short-circuits, and the second operand indexes the slice, which panics when
`index` is negative. -/
def WriteTo (stdins : List (Option PipeEnd)) (index : Int) : WriteOutcome :=
  if index < (stdins.length : Int) then
    if index < 0 then WriteOutcome.panik
    else
      match stdins.getD index.toNat none with
      | some p => WriteOutcome.passthrough p
      | none => WriteOutcome.errIdx index
  else WriteOutcome.errIdx index

/-- Outcome of `ReadFrom` (stream.go), mirroring `WriteTo`'s shape: a direct
`s.stdouts[index].Read(p)` pass-through, the out-of-range error, or the panic
on a negative index. -/
inductive ReadOutcome where
  | passthrough : PipeEnd → ReadOutcome
  | errIdx : Int → ReadOutcome
  | panik : ReadOutcome
deriving DecidableEq, Repr

/-- Go: `(s *StreamHandle) ReadFrom(index int, p []byte) (int, error)`. -/
def ReadFrom (stdouts : List (Option PipeEnd)) (index : Int) : ReadOutcome :=
  if index < (stdouts.length : Int) then
    if index < 0 then ReadOutcome.panik
    else
      match stdouts.getD index.toNat none with
      | some p => ReadOutcome.passthrough p
      | none => ReadOutcome.errIdx index
  else ReadOutcome.errIdx index

end stream

namespace utils

/-- Go: `type TailBuffer struct { Limit int; data []byte }` (utils.go).
Bytes are modelled as naturals; `Limit` is only ever constructed as 2048. -/
structure TailBuffer where
  Limit : Nat
  data : List Nat
deriving DecidableEq, Repr

/-- Go: `(b *TailBuffer) Write(p []byte)`: append, then keep only the last
`Limit` bytes when the buffer has grown past `Limit`. -/
def TailBuffer.write (b : TailBuffer) (p : List Nat) : TailBuffer :=
  let d := b.data ++ p
  if d.length > b.Limit then { b with data := d.drop (d.length - b.Limit) } else { b with data := d }

end utils

namespace lifecycle

open utils

/-- Result of `Wait` (stream.go / file.go): nil, the context's cancellation
error, or an exit error — with the stderr tail embedded when it is
non-empty. -/
inductive WaitRes where
  | ok : WaitRes
  | ctxCancelled : WaitRes
  | exitErr : WaitRes
  | exitErrWithStderr : List Nat → WaitRes
deriving DecidableEq, Repr

/-- Go: `(s *StreamHandle) Wait() error`.  `cmdSet` models `s.cmd != nil`,
`exitFailed` models `s.cmd.Wait()` returning a non-nil error, `ctxCancelled`
models `s.ctx.Err() != nil`, and `buf` is the handle's stderr `TailBuffer`. -/
def streamWait (cmdSet exitFailed ctxCancelled : Bool) (buf : TailBuffer) : WaitRes :=
  if ¬ cmdSet then WaitRes.ok
  else if exitFailed then
    if ctxCancelled then WaitRes.ctxCancelled
    else if buf.data ≠ [] then WaitRes.exitErrWithStderr buf.data
    else WaitRes.exitErr
  else WaitRes.ok

/-- Go: `(f *FileHandle) Wait() error` — identical to the stream variant but
without the nil-command early return. -/
def fileWait (exitFailed ctxCancelled : Bool) (buf : TailBuffer) : WaitRes :=
  if exitFailed then
    if ctxCancelled then WaitRes.ctxCancelled
    else if buf.data ≠ [] then WaitRes.exitErrWithStderr buf.data
    else WaitRes.exitErr
  else WaitRes.ok

end lifecycle

namespace file

open formats

/-- Go: `(f *FileHandle) buildConvertArgs() ([]string, error)` (file.go).
The Go code indexes `InputFiles[0]`/`OutputFiles[0]` unconditionally (a
missing entry panics); the embedding returns `none` in that case. -/
def buildConvertArgs (c : AudioConfig) : Option (List String) :=
  match c.InputFiles.get? 0, c.OutputFiles.get? 0 with
  | some fin, some fout =>
    some ((["-y"] ++ BuildInputArgs (c.GetInputArg 0) fin
        ++ (if c.GetFilterString ≠ "" then ["-af", c.GetFilterString] else []))
        ++ BuildOutputArgs (c.GetOutputArg 0) fout)
  | _, _ => none

/-- Go: `(f *FileHandle) buildSplitArgs() ([]string, error)` (file.go). -/
def buildSplitArgs (c : AudioConfig) : Option (List String) :=
  match c.InputFiles.get? 0, c.OutputFiles.get? 0, c.OutputFiles.get? 1 with
  | some fin, some f0, some f1 =>
    let fc := BuildFilterComplex c
    some (((["-y"] ++ BuildInputArgs (c.GetInputArg 0) fin
        ++ ["-filter_complex", fc.1]
        ++ ["-map", fc.2.getD 0 ""])
        ++ BuildOutputArgs (c.GetOutputArg 0) f0
        ++ ["-map", fc.2.getD 1 ""])
        ++ BuildOutputArgs (c.GetOutputArg 1) f1)
  | _, _, _ => none

/-- Go: `(f *FileHandle) buildMergeArgs() ([]string, error)` (file.go): one
`BuildInputArgs` block per entry of `InputFiles`, then the shared filter
graph and the single output. -/
def buildMergeArgs (c : AudioConfig) : Option (List String) :=
  match c.OutputFiles.get? 0 with
  | some f0 =>
    let fc := BuildFilterComplex c
    some ((["-y"]
        ++ (c.InputFiles.mapIdx fun i p => BuildInputArgs (c.GetInputArg i) p).flatten
        ++ ["-filter_complex", fc.1, "-map", fc.2.getD 0 ""])
        ++ BuildOutputArgs (c.GetOutputArg 0) f0)
  | none => none

end file

namespace seq

variable {α : Type} [DecidableEq α]

/-- Decides whether `a` is an initial segment of `l`. -/
def startsList : List α → List α → Bool
  | [], _ => true
  | _ :: _, [] => false
  | x :: xs, y :: ys => x = y && startsList xs ys

/-- Decides whether `a` occurs contiguously (as a consecutive block) inside `l`. -/
def withinList (a : List α) : List α → Bool
  | [] => a.isEmpty
  | x :: t => startsList a (x :: t) || withinList a t


/-- Holds when the string `n` occurs contiguously in the string `h`. -/
def withinStr (n h : String) : Prop := withinList n.toList h.toList = true

end seq


namespace fixtures

open formats

/-- The repository's stream-convert test configuration (`audio.go`,
`testConfig`). -/
def testConfig : AudioConfig :=
  { InputArgs := [{ AudioFileFormat := S16LE, SampleRate := 8000, Channels := 1 }]
    OutputArgs := [{ AudioFileFormat := WAV, SampleRate := 8000, Channels := 1 }]
    OpType := FORMATCONVERT
    MergeMode := MergeMode.Mix
    InputFiles := []
    OutputFiles := []
    FilterString := "" }

/-- The repository's channel-split test configuration (`audio.go`,
`splitConfig`): stereo mp3 in, one raw and one wav mono output. -/
def splitConfig : AudioConfig :=
  { InputArgs := [{ AudioFileFormat := MP3, SampleRate := 44100, Channels := 2 }]
    OutputArgs :=
      [{ AudioFileFormat := S16LE, SampleRate := 8000, Channels := 1 },
       { AudioFileFormat := WAV, SampleRate := 16000, Channels := 1 }]
    OpType := CHANNELSPLIT
    MergeMode := MergeMode.Mix
    InputFiles := []
    OutputFiles := []
    FilterString := "" }

/-- The repository's merge test configuration (`audio.go`, `mergeConfig`):
two mono inputs, one stereo output, `SideBySide`. -/
def mergeConfig : AudioConfig :=
  { InputArgs :=
      [{ AudioFileFormat := WAV, SampleRate := 8000, Channels := 1 },
       { AudioFileFormat := MP3, SampleRate := 24000, Channels := 1 }]
    OutputArgs := [{ AudioFileFormat := WAV, SampleRate := 16000, Channels := 2 }]
    OpType := AUDIOMERGE
    MergeMode := MergeMode.SideBySide
    InputFiles := []
    OutputFiles := []
    FilterString := "" }

/-- A split configuration with three (individually well-formed) output
entries. -/
def splitThreeOutputs : AudioConfig :=
  { splitConfig with
    OutputArgs :=
      [{ AudioFileFormat := S16LE, SampleRate := 8000, Channels := 1 },
       { AudioFileFormat := WAV, SampleRate := 16000, Channels := 1 },
       { AudioFileFormat := WAV, SampleRate := 16000, Channels := 1 }] }

/-- A SideBySide merge configuration with three (individually well-formed)
mono input entries. -/
def mergeThreeInputs : AudioConfig :=
  { mergeConfig with
    InputArgs :=
      [{ AudioFileFormat := WAV, SampleRate := 8000, Channels := 1 },
       { AudioFileFormat := MP3, SampleRate := 24000, Channels := 1 },
       { AudioFileFormat := WAV, SampleRate := 8000, Channels := 1 }] }

/-- The convert test configuration with disk files attached (`audio.go`,
`TestFileFormatConvert`). -/
def testConfigFiles : AudioConfig :=
  { testConfig with
    InputFiles := ["./example/sample_data/convert.pcm"]
    OutputFiles := ["./example/sample_data/out-one-8kHz.pcm"] }

/-- The split test configuration with disk files attached (`audio.go`,
`TestFileChannelSplit`). -/
def splitConfigFiles : AudioConfig :=
  { splitConfig with
    InputFiles := ["./example/sample_data/audio-stereo.mp3"]
    OutputFiles := ["./example/sample_data/out-left.pcm", "./example/sample_data/out-right.pcm"] }

/-- The merge test configuration with disk files attached (`audio.go`,
`TestFileAudioMerge`). -/
def mergeConfigFiles : AudioConfig :=
  { mergeConfig with
    InputFiles := ["./example/sample_data/audio-8kHz.wav", "./example/sample_data/audio-24kHz.mp3"]
    OutputFiles := ["./example/sample_data/out-stereo.wav"] }

end fixtures

namespace seq

variable {α : Type} [DecidableEq α]

theorem startsList_self_append (a t : List α) : startsList a (a ++ t) = true := by
  induction a with
  | nil => rfl
  | cons x xs ih => simp [startsList, ih]

theorem startsList_extend (a : List α) : ∀ l m : List α, startsList a l = true → startsList a (l ++ m) = true := by
  induction a with
  | nil => intro l m _; rfl
  | cons x xs ih =>
    intro l m h
    cases l with
    | nil => simp [startsList] at h
    | cons y ys =>
      simp only [startsList, Bool.and_eq_true, decide_eq_true_eq] at h
      simp [startsList, h.1, ih ys m h.2]

theorem withinList_of_starts (a l : List α) (h : startsList a l = true) : withinList a l = true := by
  cases l with
  | nil =>
    cases a with
    | nil => rfl
    | cons x xs => simp [startsList] at h
  | cons y ys => simp [withinList, h]

theorem withinList_cons (a t : List α) (x : α) (h : withinList a t = true) :
    withinList a (x :: t) = true := by
  simp [withinList, h]

theorem withinList_append_left (a : List α) (l : List α) {m : List α}
    (h : withinList a m = true) : withinList a (l ++ m) = true := by
  induction l with
  | nil => simpa using h
  | cons x xs ih => exact withinList_cons a (xs ++ m) x ih

theorem withinList_nil (l : List α) : withinList ([] : List α) l = true := by
  induction l with
  | nil => rfl
  | cons x xs ih => simp [withinList, startsList]

theorem withinList_append_right (a : List α) :
    ∀ l m : List α, withinList a l = true → withinList a (l ++ m) = true := by
  intro l m
  induction l with
  | nil =>
    intro h
    cases a with
    | nil => exact withinList_nil m
    | cons x xs => simp [withinList, List.isEmpty] at h
  | cons x xs ih =>
    intro h
    simp only [withinList, Bool.or_eq_true] at h
    rcases h with h | h
    · exact withinList_of_starts a ((x :: xs) ++ m) (startsList_extend a (x :: xs) m h)
    · exact withinList_cons a (xs ++ m) x (ih h)

/-- The chunk `a` occurs inside `p ++ a ++ s`. -/
theorem withinList_sandwich (a p s : List α) : withinList a (p ++ (a ++ s)) = true :=
  withinList_append_left a p (withinList_of_starts a (a ++ s) (startsList_self_append a s))

/-- The chunk `a` occurs inside `p ++ a`. -/
theorem withinList_tail (a p : List α) : withinList a (p ++ a) = true := by
  have h := withinList_sandwich a p []
  simpa using h

theorem str_toList_append (a b : String) : (a ++ b).toList = a.toList ++ b.toList := rfl

end seq

namespace utils

/-- One `TailBuffer.write` step preserves the tail invariant: the buffer holds
a suffix of the byte history whose length is `min (history length) Limit`. -/
theorem write_invariant (b : TailBuffer) (p h : List Nat)
    (hs : b.data <:+ h) (hlen : b.data.length = min h.length b.Limit) :
    (b.write p).data <:+ (h ++ p) ∧
      (b.write p).data.length = min (h ++ p).length b.Limit ∧
      (b.write p).Limit = b.Limit := by
  have hd : b.data ++ p <:+ h ++ p := by
    rcases hs with ⟨t, ht⟩
    exact ⟨t, by rw [← List.append_assoc, ht]⟩
  unfold TailBuffer.write
  by_cases hgt : (b.data ++ p).length > b.Limit
  · simp only [hgt, if_true]
    refine ⟨List.IsSuffix.trans (List.drop_suffix _ _) hd, ?_, trivial⟩
    have hlp : (b.data ++ p).length = b.data.length + p.length := List.length_append _ _
    simp only [List.length_drop, List.length_append]
    omega
  · simp only [hgt, if_false]
    refine ⟨hd, ?_, trivial⟩
    have hlp : (b.data ++ p).length = b.data.length + p.length := List.length_append _ _
    simp only [List.length_append]
    omega

/-- Folding a sequence of writes into a `TailBuffer` keeps the invariant. -/
theorem foldl_write_invariant (ws : List (List Nat)) :
    ∀ (b : TailBuffer) (h : List Nat),
      b.data <:+ h → b.data.length = min h.length b.Limit →
      (ws.foldl TailBuffer.write b).data <:+ (h ++ ws.flatten) ∧
        (ws.foldl TailBuffer.write b).data.length = min (h ++ ws.flatten).length b.Limit ∧
        (ws.foldl TailBuffer.write b).Limit = b.Limit := by
  induction ws with
  | nil =>
    intro b h hs hlen
    simp only [List.foldl_nil, List.flatten_nil, List.append_nil]
    exact ⟨hs, hlen, trivial⟩
  | cons w ws ih =>
    intro b h hs hlen
    obtain ⟨hs', hlen', hL'⟩ := write_invariant b w h hs hlen
    have := ih (b.write w) (h ++ w) hs' (by rw [hL']; exact hlen')
    rcases this with ⟨h1, h2, h3⟩
    rw [hL'] at h2 h3
    refine ⟨?_, ?_, ?_⟩ <;> simp only [List.foldl_cons, List.flatten_cons, ← List.append_assoc]
    · exact h1
    · exact h2
    · exact h3

end utils

namespace helpers

open formats

theorem getD_append_last {α : Type} (l' : List α) (a d : α) :
    (l' ++ [a]).getD l'.length d = a := by
  induction l' with
  | nil => rfl
  | cons x xs ih => simpa [List.getD] using ih

theorem getD_replicate {α : Type} (x d : α) (n i : Nat) (h : i < n) :
    (List.replicate n x).getD i d = x := by
  induction n generalizing i with
  | zero => omega
  | succ n ih =>
    cases i with
    | zero => rfl
    | succ j =>
      have := ih j (by omega)
      simpa [List.replicate_succ, List.getD] using this

/-- Resolving any index against a broadcast-expanded (replicated) sequence
yields the replicated entry. -/
theorem GetInputArg_replicate (c : AudioConfig) (x : AudioArgs) (n i : Nat)
    (hn : 0 < n) (hc : c.InputArgs = List.replicate n x) : c.GetInputArg i = x := by
  unfold AudioConfig.GetInputArg
  rw [hc]
  simp only [List.length_replicate]
  have hne : ¬ n = 0 := by omega
  by_cases h1 : n = 1
  · subst h1
    simp [getD_replicate x zeroArgs 1 0 (by omega)]
  · simp only [if_neg hne, if_neg h1]
    by_cases h2 : i < n
    · rw [if_pos h2]
      exact getD_replicate x zeroArgs n i h2
    · rw [if_neg h2]
      exact getD_replicate x zeroArgs n (n - 1) (by omega)

theorem GetOutputArg_replicate (c : AudioConfig) (x : AudioArgs) (n i : Nat)
    (hn : 0 < n) (hc : c.OutputArgs = List.replicate n x) : c.GetOutputArg i = x := by
  unfold AudioConfig.GetOutputArg
  rw [hc]
  simp only [List.length_replicate]
  have hne : ¬ n = 0 := by omega
  by_cases h1 : n = 1
  · subst h1
    simp [getD_replicate x zeroArgs 1 0 (by omega)]
  · simp only [if_neg hne, if_neg h1]
    by_cases h2 : i < n
    · rw [if_pos h2]
      exact getD_replicate x zeroArgs n i h2
    · rw [if_neg h2]
      exact getD_replicate x zeroArgs n (n - 1) (by omega)

end helpers

open formats stream utils lifecycle seq fixtures helpers in
/-- C10: `GetInputArg` and `GetOutputArg` are total for every non-negative
index — with an empty sequence they return the zero-valued `AudioArgs`, with
a single entry they return that entry for every index, and with two or more
entries an index at or past the end returns the last entry rather than
failing; out-of-range resolution never produces an error (both functions are
total by construction). -/
theorem getArg_total_resolution (c : AudioConfig) (i : Nat) :
    (c.InputArgs = [] → c.GetInputArg i = zeroArgs) ∧
    (∀ a, c.InputArgs = [a] → c.GetInputArg i = a) ∧
    (∀ (l' : List AudioArgs) (a : AudioArgs),
      c.InputArgs = l' ++ [a] → 2 ≤ c.InputArgs.length → c.InputArgs.length ≤ i →
      c.GetInputArg i = a) ∧
    (c.OutputArgs = [] → c.GetOutputArg i = zeroArgs) ∧
    (∀ a, c.OutputArgs = [a] → c.GetOutputArg i = a) ∧
    (∀ (l' : List AudioArgs) (a : AudioArgs),
      c.OutputArgs = l' ++ [a] → 2 ≤ c.OutputArgs.length → c.OutputArgs.length ≤ i →
      c.GetOutputArg i = a) := by
  refine ⟨?_, ?_, ?_, ?_, ?_, ?_⟩
  · intro h; simp [AudioConfig.GetInputArg, h]
  · intro a h; simp [AudioConfig.GetInputArg, h]
  · intro l' a h h2 hi
    rw [h] at h2 hi
    unfold AudioConfig.GetInputArg
    rw [h]
    have hl : (l' ++ [a]).length = l'.length + 1 := by simp
    rw [if_neg (by omega), if_neg (by omega), if_neg (by omega), hl]
    simpa using getD_append_last l' a zeroArgs
  · intro h; simp [AudioConfig.GetOutputArg, h]
  · intro a h; simp [AudioConfig.GetOutputArg, h]
  · intro l' a h h2 hi
    rw [h] at h2 hi
    unfold AudioConfig.GetOutputArg
    rw [h]
    have hl : (l' ++ [a]).length = l'.length + 1 := by simp
    rw [if_neg (by omega), if_neg (by omega), if_neg (by omega), hl]
    simpa using getD_append_last l' a zeroArgs

open formats fixtures in
/-- Witness for C10: resolving index 5 of the single-entry convert test
configuration yields its one entry. -/
theorem getArg_total_resolution_witness :
    testConfig.GetInputArg 5 = { AudioFileFormat := S16LE, SampleRate := 8000, Channels := 1 } :=
  (getArg_total_resolution testConfig 5).2.1 _ rfl

open formats helpers in
/-- C8: broadcast equivalence — for a configuration whose `InputArgs`
(respectively `OutputArgs`) is a single entry, `SetDefaults` followed by
`GetInputArg i` (`GetOutputArg i`) gives, at every index `i`, the same
effective `AudioArgs` as the configuration with that entry explicitly
repeated at every index (modelled by `List.replicate n` for any `n ≥ 1`). -/
theorem broadcast_equivalence (c : AudioConfig) (a : AudioArgs) (n i : Nat) (h : 0 < n) :
    ({ c with InputArgs := [a] } : AudioConfig).SetDefaults.GetInputArg i
        = ({ c with InputArgs := List.replicate n a } : AudioConfig).SetDefaults.GetInputArg i
    ∧ ({ c with OutputArgs := [a] } : AudioConfig).SetDefaults.GetOutputArg i
        = ({ c with OutputArgs := List.replicate n a } : AudioConfig).SetDefaults.GetOutputArg i := by
  constructor
  · have h1 : ({ c with InputArgs := [a] } : AudioConfig).SetDefaults.InputArgs
        = List.replicate 1 (dfltArgs a) := by
      simp [AudioConfig.SetDefaults, List.replicate]
    have h2 : ({ c with InputArgs := List.replicate n a } : AudioConfig).SetDefaults.InputArgs
        = List.replicate n (dfltArgs a) := by
      simp [AudioConfig.SetDefaults, List.length_replicate, Nat.pos_iff_ne_zero.mp h,
        List.map_replicate]
    rw [GetInputArg_replicate _ _ 1 i (by omega) h1,
      GetInputArg_replicate _ _ n i h h2]
  · have h1 : ({ c with OutputArgs := [a] } : AudioConfig).SetDefaults.OutputArgs
        = List.replicate 1 (dfltArgs a) := by
      simp [AudioConfig.SetDefaults, List.replicate]
    have h2 : ({ c with OutputArgs := List.replicate n a } : AudioConfig).SetDefaults.OutputArgs
        = List.replicate n (dfltArgs a) := by
      simp [AudioConfig.SetDefaults, List.length_replicate, Nat.pos_iff_ne_zero.mp h,
        List.map_replicate]
    rw [GetOutputArg_replicate _ _ 1 i (by omega) h1,
      GetOutputArg_replicate _ _ n i h h2]

open formats fixtures in
/-- Witness for C8: the single-entry convert test configuration resolves
index 4 identically to the same entry replicated three times. -/
theorem broadcast_equivalence_witness :
    0 < 3 ∧
      ({ testConfig with
          InputArgs := [{ AudioFileFormat := S16LE, SampleRate := 8000, Channels := 1 }] }
            : AudioConfig).SetDefaults.GetInputArg 4
        = ({ testConfig with
            InputArgs :=
              List.replicate 3 { AudioFileFormat := S16LE, SampleRate := 8000, Channels := 1 } }
              : AudioConfig).SetDefaults.GetInputArg 4 :=
  ⟨by decide,
    (broadcast_equivalence testConfig
      { AudioFileFormat := S16LE, SampleRate := 8000, Channels := 1 } 3 4 (by decide)).1⟩

namespace helpers

open formats

/-- The `CHANNELSPLIT` branch of `Validate` succeeds exactly when the
effective input 0 is stereo: its second guard
(`len(OutputArgs) > 1 && len(OutputArgs) < 2`) is unsatisfiable. -/
theorem splitBranch_none_iff (c : AudioConfig) :
    splitBranch c = none ↔ (c.GetInputArg 0).Channels = 2 := by
  unfold splitBranch
  split_ifs with hA hB
  · simp only [reduceCtorEq, false_iff]
    exact hA
  · exact absurd hB (by omega)
  · simp only [true_iff]
    exact not_ne_iff.mp hA

/-- The `AUDIOMERGE` branch of `Validate` under `SideBySide` succeeds exactly
when the effective output 0 is stereo and the effective inputs 0 and 1 are
mono. -/
theorem mergeBranch_none_iff (c : AudioConfig) (h2 : c.MergeMode = MergeMode.SideBySide) :
    mergeBranch c = none ↔
      ((c.GetOutputArg 0).Channels = 2 ∧ (c.GetInputArg 0).Channels ≤ 1 ∧
        (c.GetInputArg 1).Channels ≤ 1) := by
  unfold mergeBranch
  rw [h2, show List.range 2 = [0, 1] from rfl]
  simp only [List.findSome?_cons, List.findSome?_nil]
  split_ifs <;> simp_all <;> omega

/-- On a `CHANNELSPLIT` configuration, `Validate` reduces to the two argument
loops and the split branch. -/
theorem validate_none_split (c : AudioConfig) (h : c.OpType = CHANNELSPLIT) :
    c.Validate = none ↔
      (inputsErr c = none ∧ outputsErr c = none ∧ splitBranch c = none) := by
  unfold AudioConfig.Validate
  rw [h, if_neg (fun hx => hx.2.1 rfl)]
  cases hin : inputsErr c with
  | some e => simp
  | none =>
    cases hout : outputsErr c with
    | some e => simp
    | none =>
      rw [if_pos rfl]
      simp

/-- On an `AUDIOMERGE` configuration, `Validate` reduces to the two argument
loops and the merge branch. -/
theorem validate_none_merge (c : AudioConfig) (h : c.OpType = AUDIOMERGE) :
    c.Validate = none ↔
      (inputsErr c = none ∧ outputsErr c = none ∧ mergeBranch c = none) := by
  unfold AudioConfig.Validate
  rw [h, if_neg (fun hx => hx.2.2 rfl)]
  cases hin : inputsErr c with
  | some e => simp
  | none =>
    cases hout : outputsErr c with
    | some e => simp
    | none =>
      rw [if_neg (by decide), if_pos rfl]
      simp

end helpers

open formats helpers in
/-- C6 (amended): for every Split descriptor, `Validate` succeeds iff the
per-entry argument checks pass and the effective input at index 0 has
channel count 2; the number of output entries is NOT constrained — the
source's output-count guard (`len(OutputArgs) > 1 && len(OutputArgs) < 2`)
is unsatisfiable, so descriptors with any number of well-formed output
entries (including three) validate successfully. -/
theorem split_validate_iff (c : AudioConfig) (h : c.OpType = CHANNELSPLIT) :
    c.Validate = none ↔
      (inputsErr c = none ∧ outputsErr c = none ∧ (c.GetInputArg 0).Channels = 2) := by
  rw [validate_none_split c h, splitBranch_none_iff]

open formats fixtures in
/-- Counterexample for C6 as stated: a defaulted Split descriptor with three
explicit (well-formed) output entries — neither one broadcast entry nor
exactly two — still validates successfully. -/
theorem split_validate_three_outputs_cex :
    splitThreeOutputs.SetDefaults.Validate = none ∧
      splitThreeOutputs.SetDefaults.OutputArgs.length = 3 := by decide

open formats fixtures in
/-- Witness for C6: the repository's split test configuration validates. -/
theorem split_validate_iff_witness : splitConfig.Validate = none :=
  (split_validate_iff splitConfig rfl).mpr (by decide)

open formats helpers in
/-- C7 (amended): for every Merge descriptor under `SideBySide`, `Validate`
succeeds iff the per-entry argument checks pass, the effective output at
index 0 is stereo and the effective inputs at indices 0 and 1 are mono
(channel count ≤ 1; = 1 after defaulting); the number of input entries is
NOT constrained — one broadcast entry or three entries also validate. -/
theorem merge_validate_iff (c : AudioConfig) (h1 : c.OpType = AUDIOMERGE)
    (h2 : c.MergeMode = MergeMode.SideBySide) :
    c.Validate = none ↔
      (inputsErr c = none ∧ outputsErr c = none ∧ (c.GetOutputArg 0).Channels = 2 ∧
        (c.GetInputArg 0).Channels ≤ 1 ∧ (c.GetInputArg 1).Channels ≤ 1) := by
  rw [validate_none_merge c h1, mergeBranch_none_iff c h2]

open formats fixtures in
/-- Counterexample for C7 as stated: a defaulted SideBySide Merge descriptor
with three (well-formed, mono) input entries — not exactly two — still
validates successfully. -/
theorem merge_validate_three_inputs_cex :
    mergeThreeInputs.SetDefaults.Validate = none ∧
      mergeThreeInputs.SetDefaults.InputArgs.length = 3 := by decide

open formats fixtures in
/-- Witness for C7: the repository's merge test configuration validates. -/
theorem merge_validate_iff_witness : mergeConfig.Validate = none :=
  (merge_validate_iff mergeConfig rfl rfl).mpr (by decide)

open utils lifecycle in
/-- C2: for stream and file handles alike, when `Wait` observes a process
exit failure while the governing context is cancelled it returns the
context's cancellation error instead of a generic exit error; otherwise, on
nonzero exit, it returns an exit error embedding the accumulated stderr
tail, and after any sequence of stderr writes that tail is a suffix of the
full stderr byte stream of length `min (total) 2048` — i.e. exactly the last
at-most-2048 bytes. -/
theorem wait_prefers_cancellation_and_bounds_tail (ws : List (List Nat)) (cancelled : Bool) :
    (streamWait true true cancelled (ws.foldl TailBuffer.write ⟨2048, []⟩) =
        (if cancelled then WaitRes.ctxCancelled
         else if (ws.foldl TailBuffer.write ⟨2048, []⟩).data = [] then WaitRes.exitErr
         else WaitRes.exitErrWithStderr (ws.foldl TailBuffer.write ⟨2048, []⟩).data)) ∧
    (fileWait true cancelled (ws.foldl TailBuffer.write ⟨2048, []⟩) =
        (if cancelled then WaitRes.ctxCancelled
         else if (ws.foldl TailBuffer.write ⟨2048, []⟩).data = [] then WaitRes.exitErr
         else WaitRes.exitErrWithStderr (ws.foldl TailBuffer.write ⟨2048, []⟩).data)) ∧
    (ws.foldl TailBuffer.write ⟨2048, []⟩).data <:+ ws.flatten ∧
    (ws.foldl TailBuffer.write ⟨2048, []⟩).data.length = min ws.flatten.length 2048 := by
  obtain ⟨h1, h2, h3⟩ := foldl_write_invariant ws ⟨2048, []⟩ [] ⟨[], rfl⟩ (by simp)
  refine ⟨?_, ?_, by simpa using h1, by simpa using h2⟩
  · by_cases hc : cancelled <;>
      by_cases hb : (ws.foldl TailBuffer.write ⟨2048, []⟩).data = [] <;>
        simp [streamWait, hc, hb]
  · by_cases hc : cancelled <;>
      by_cases hb : (ws.foldl TailBuffer.write ⟨2048, []⟩).data = [] <;>
        simp [fileWait, hc, hb]

namespace helpers

theorem getD_some_lt_length {α : Type} (l : List (Option α)) (i : Nat) (p : α)
    (h : l.getD i none = some p) : i < l.length := by
  by_contra hge
  rw [List.getD_eq_default] at h
  · exact Option.noConfusion h
  · omega

theorem setupStdins_length_pos (c : formats.AudioConfig) :
    1 ≤ (stream.setupStdins c).length := by
  by_cases h : c.OpType = formats.AUDIOMERGE <;> simp [stream.setupStdins, h]

theorem setupStdouts_length_pos (c : formats.AudioConfig) :
    1 ≤ (stream.setupStdouts c).length := by
  by_cases h : c.OpType = formats.CHANNELSPLIT <;> simp [stream.setupStdouts, h]

end helpers

open formats stream helpers in
/-- C9 (amended): for every started stream handle and every index, `WriteTo`
and `ReadFrom` return an out-of-range error for every NON-NEGATIVE index
outside the allocated pipe lists, and pass the bytes directly through to the
parent-owned pipe end at the index when it exists; a NEGATIVE index,
however, does not return an error — the guard `index < len(s.stdins)` is
true for it, and indexing the slice panics. -/
theorem channel_io_dispatch (c : AudioConfig) (i : Int) :
    (i < 0 →
      WriteTo (setupStdins c) i = WriteOutcome.panik ∧
        ReadFrom (setupStdouts c) i = ReadOutcome.panik) ∧
    (0 ≤ i → ((setupStdins c).length : Int) ≤ i →
      WriteTo (setupStdins c) i = WriteOutcome.errIdx i) ∧
    (0 ≤ i → ((setupStdouts c).length : Int) ≤ i →
      ReadFrom (setupStdouts c) i = ReadOutcome.errIdx i) ∧
    (∀ p, 0 ≤ i → (setupStdins c).getD i.toNat none = some p →
      WriteTo (setupStdins c) i = WriteOutcome.passthrough p) ∧
    (∀ p, 0 ≤ i → (setupStdouts c).getD i.toNat none = some p →
      ReadFrom (setupStdouts c) i = ReadOutcome.passthrough p) := by
  have hw := setupStdins_length_pos c
  have hr := setupStdouts_length_pos c
  refine ⟨fun hi => ⟨?_, ?_⟩, fun h0 hge => ?_, fun h0 hge => ?_,
    fun p h0 hp => ?_, fun p h0 hp => ?_⟩
  · unfold WriteTo
    rw [if_pos (by omega), if_pos hi]
  · unfold ReadFrom
    rw [if_pos (by omega), if_pos hi]
  · unfold WriteTo
    rw [if_neg (by omega)]
  · unfold ReadFrom
    rw [if_neg (by omega)]
  · have hlt := getD_some_lt_length _ _ _ hp
    unfold WriteTo
    rw [if_pos (by omega), if_neg (by omega), hp]
  · have hlt := getD_some_lt_length _ _ _ hp
    unfold ReadFrom
    rw [if_pos (by omega), if_neg (by omega), hp]

open formats stream fixtures in
/-- Counterexample for C9 as stated: on a started Convert handle the input
index −1 lies outside the allocated pipe lists, yet `WriteTo`/`ReadFrom` do
not return an out-of-range error there — they hit the Go runtime panic of a
negative slice index. -/
theorem channel_io_negative_index_cex :
    WriteTo (setupStdins testConfig) (-1) = WriteOutcome.panik ∧
      ReadFrom (setupStdouts testConfig) (-1) = ReadOutcome.panik ∧
      WriteTo (setupStdins testConfig) (-1) ≠ WriteOutcome.errIdx (-1) := by decide

open formats stream fixtures in
/-- Witness for C9: on the merge test handle, input index 1 passes through
to the parent-owned write end of the extra pipe; on the convert test handle,
input index 1 does not exist and yields the out-of-range error. -/
theorem channel_io_dispatch_witness :
    WriteTo (setupStdins mergeConfig) 1 = WriteOutcome.passthrough PipeEnd.mergeParentWrite ∧
      WriteTo (setupStdins testConfig) 1 = WriteOutcome.errIdx 1 :=
  ⟨(channel_io_dispatch mergeConfig 1).2.2.2.1 _ (by decide) (by decide),
    (channel_io_dispatch testConfig 1).2.1 (by decide) (by decide)⟩

open formats stream fixtures in
/-- C1 evaluated at the failing input: on spawn success the Split handle's
child-owned extra-file end is exactly what `Run` closes; but on spawn
failure the cleanup (`closeAllPipes`) closes only the parent-owned
`stdins`/`stdouts` entries — the child-owned write end of the Split extra
pipe (and the child-owned read end of the Merge extra pipe) is allocated
yet NOT closed, so a failed start leaves a pipe end open. -/
theorem run_cleanup_divergence :
    runClosedEnds splitConfig true = [PipeEnd.splitChildWrite] ∧
      PipeEnd.splitChildWrite ∈ allocatedEnds splitConfig ∧
      runClosedEnds splitConfig false =
        [PipeEnd.stdin0, PipeEnd.stdout0, PipeEnd.splitParentRead] ∧
      PipeEnd.splitChildWrite ∉ runClosedEnds splitConfig false ∧
      PipeEnd.mergeChildRead ∈ allocatedEnds mergeConfig ∧
      PipeEnd.mergeChildRead ∉ runClosedEnds mergeConfig false := by decide

namespace seq

theorem withinList_of_eq {α : Type} [DecidableEq α] (a l p s : List α)
    (h : l = p ++ (a ++ s)) : withinList a l = true :=
  h ▸ withinList_sandwich a p s

end seq

open formats stream seq fixtures in
/-- C5 (amended): in stream mode, only the Merge builder requests the
larger-than-default read-ahead queue — it emits
`-thread_queue_size 1024` immediately before the format/source pair of each
of its two pipe inputs — and the shared input builder `BuildInputArgs`
(used by file mode) emits it whenever the source is pipe-prefixed; the
stream-mode Convert and Split builders do NOT emit it for their live pipe
inputs (witnessed on the repository's convert and split test
configurations). -/
theorem thread_queue_policy (c : AudioConfig) (args0 : List String) (a : AudioArgs)
    (src : String) (h : goHasPrefix src "pipe:" = true) :
    withinList
        ["-thread_queue_size", "1024", "-f", (c.GetInputArg 0).AudioFileFormat, "-i", "pipe:0"]
        (buildMergeArgs c args0) = true ∧
    withinList
        ["-thread_queue_size", "1024", "-f", (c.GetInputArg 1).AudioFileFormat, "-i", "pipe:3"]
        (buildMergeArgs c args0) = true ∧
    withinList ["-thread_queue_size", "1024"] (BuildInputArgs a src) = true ∧
    "-thread_queue_size" ∉ buildConvertArgs testConfig fastArgs ∧
    "-thread_queue_size" ∉ buildSplitArgs splitConfig fastArgs := by
  have hp0 : ("pipe:" ++ toString (0 : Nat) : String) = "pipe:0" := by decide
  have hp3 : ("pipe:" ++ toString (3 : Nat) : String) = "pipe:3" := by decide
  refine ⟨?_, ?_, ?_, by decide, by decide⟩
  · apply withinList_of_eq _ _
      (args0 ++ (if IsRawPCM (c.GetInputArg 0).AudioFileFormat then
        ["-ar", goInt (c.GetInputArg 0).SampleRate, "-ac", goInt (c.GetInputArg 0).Channels] else []))
      (mergeInputChunk c 1
        ++ ["-filter_complex", mergeFilterStr c, "-map", "[out]"]
        ++ ["-ar", goInt (c.GetOutputArg 0).SampleRate, "-ac", goInt (c.GetOutputArg 0).Channels,
            "-f", (c.GetOutputArg 0).AudioFileFormat, "pipe:1"])
    simp [buildMergeArgs, mergeInputChunk, hp0, List.append_assoc]
  · apply withinList_of_eq _ _
      (args0 ++ mergeInputChunk c 0
        ++ (if IsRawPCM (c.GetInputArg 1).AudioFileFormat then
          ["-ar", goInt (c.GetInputArg 1).SampleRate, "-ac", goInt (c.GetInputArg 1).Channels] else []))
      (["-filter_complex", mergeFilterStr c, "-map", "[out]"]
        ++ ["-ar", goInt (c.GetOutputArg 0).SampleRate, "-ac", goInt (c.GetOutputArg 0).Channels,
            "-f", (c.GetOutputArg 0).AudioFileFormat, "pipe:1"])
    simp [buildMergeArgs, mergeInputChunk, hp3, List.append_assoc]
  · apply withinList_of_eq _ _
      (if IsRawPCM a.AudioFileFormat then
        ["-ar", goInt a.SampleRate, "-ac", goInt a.Channels] else [])
      ["-f", a.AudioFileFormat, "-i", src]
    simp [BuildInputArgs, h, List.append_assoc]

open formats stream fixtures in
/-- Counterexample for C5 as stated: the repository's (validated) convert
and split test configurations read from the live pipe `pipe:0` in stream
mode, yet their built argument vectors contain no `-thread_queue_size`
argument at all. -/
theorem thread_queue_missing_cex :
    testConfig.Validate = none ∧
      "-thread_queue_size" ∉ buildConvertArgs testConfig fastArgs ∧
      splitConfig.Validate = none ∧
      "-thread_queue_size" ∉ buildSplitArgs splitConfig fastArgs := by decide

open formats stream seq fixtures in
/-- Witness for C5: `BuildInputArgs` on a pipe-prefixed source emits the
read-ahead queue request. -/
theorem thread_queue_policy_witness :
    withinList ["-thread_queue_size", "1024"]
      (BuildInputArgs { AudioFileFormat := S16LE, SampleRate := 8000, Channels := 1 } "pipe:0")
      = true :=
  (thread_queue_policy mergeConfig fastArgs
    { AudioFileFormat := S16LE, SampleRate := 8000, Channels := 1 } "pipe:0" (by decide)).2.2.1

open formats stream seq fixtures in
/-- C3 (amended): Convert and Merge in stream mode, and all three operation
types in file mode, emit explicit sample-rate, channel-count and format
arguments (`-ar`, `-ac`, `-f`) for every output channel; the stream-mode
Split builder instead emits only `-ar` and `-f` for each of its two outputs
and omits `-ac` (the repository's split test configuration witnesses the
omission). -/
theorem output_args_policy :
    (∀ (c : AudioConfig) (args0 : List String),
      withinList
          ["-ar", goInt (c.GetOutputArg 0).SampleRate, "-ac", goInt (c.GetOutputArg 0).Channels,
            "-f", (c.GetOutputArg 0).AudioFileFormat, "pipe:1"]
          (buildConvertArgs c args0) = true) ∧
    (∀ (c : AudioConfig) (args0 : List String),
      withinList
          ["-ar", goInt (c.GetOutputArg 0).SampleRate, "-ac", goInt (c.GetOutputArg 0).Channels,
            "-f", (c.GetOutputArg 0).AudioFileFormat, "pipe:1"]
          (buildMergeArgs c args0) = true) ∧
    (∀ (c : AudioConfig) (args0 : List String),
      withinList
          ["-map", "[left]", "-ar", goInt (c.GetOutputArg 0).SampleRate,
            "-f", (c.GetOutputArg 0).AudioFileFormat, "pipe:1"]
          (buildSplitArgs c args0) = true ∧
      withinList
          ["-map", "[right]", "-ar", goInt (c.GetOutputArg 1).SampleRate,
            "-f", (c.GetOutputArg 1).AudioFileFormat, "pipe:3"]
          (buildSplitArgs c args0) = true) ∧
    ("-ac" ∉ buildSplitArgs splitConfig fastArgs) ∧
    (∀ (a : AudioArgs) (t : String),
      BuildOutputArgs a t =
        ["-ar", goInt a.SampleRate, "-ac", goInt a.Channels, "-f", a.AudioFileFormat, t]) ∧
    (∀ (c : AudioConfig) (fin fout : String),
      c.InputFiles.get? 0 = some fin → c.OutputFiles.get? 0 = some fout →
      ∃ A, file.buildConvertArgs c = some A ∧
        withinList (BuildOutputArgs (c.GetOutputArg 0) fout) A = true) ∧
    (∀ (c : AudioConfig) (fin f0 f1 : String),
      c.InputFiles.get? 0 = some fin → c.OutputFiles.get? 0 = some f0 →
      c.OutputFiles.get? 1 = some f1 →
      ∃ A, file.buildSplitArgs c = some A ∧
        withinList (BuildOutputArgs (c.GetOutputArg 0) f0) A = true ∧
        withinList (BuildOutputArgs (c.GetOutputArg 1) f1) A = true) ∧
    (∀ (c : AudioConfig) (f0 : String),
      c.OutputFiles.get? 0 = some f0 →
      ∃ A, file.buildMergeArgs c = some A ∧
        withinList (BuildOutputArgs (c.GetOutputArg 0) f0) A = true) := by
  refine ⟨?_, ?_, ?_, by decide, fun a t => rfl, ?_, ?_, ?_⟩
  · intro c args0
    apply withinList_of_eq _ _
      (args0
        ++ (if IsRawPCM (c.GetInputArg 0).AudioFileFormat then
          ["-ar", goInt (c.GetInputArg 0).SampleRate, "-ac", goInt (c.GetInputArg 0).Channels] else [])
        ++ ["-f", (c.GetInputArg 0).AudioFileFormat, "-i", "pipe:0"]
        ++ ["-af", "aresample=" ++ goInt (c.GetOutputArg 0).SampleRate]) []
    simp [buildConvertArgs, List.append_assoc]
  · intro c args0
    apply withinList_of_eq _ _
      (args0 ++ mergeInputChunk c 0 ++ mergeInputChunk c 1
        ++ ["-filter_complex", mergeFilterStr c, "-map", "[out]"]) []
    simp [buildMergeArgs, List.append_assoc]
  · intro c args0
    constructor
    · apply withinList_of_eq _ _
        (args0
          ++ (if IsRawPCM (c.GetInputArg 0).AudioFileFormat then
            ["-ar", goInt (c.GetInputArg 0).SampleRate, "-ac", goInt (c.GetInputArg 0).Channels] else [])
          ++ ["-f", (c.GetInputArg 0).AudioFileFormat, "-i", "pipe:0"]
          ++ ["-filter_complex", splitFilterStr c])
        ["-map", "[right]", "-ar", goInt (c.GetOutputArg 1).SampleRate,
          "-f", (c.GetOutputArg 1).AudioFileFormat, "pipe:3"]
      simp [buildSplitArgs, List.append_assoc]
    · apply withinList_of_eq _ _
        (args0
          ++ (if IsRawPCM (c.GetInputArg 0).AudioFileFormat then
            ["-ar", goInt (c.GetInputArg 0).SampleRate, "-ac", goInt (c.GetInputArg 0).Channels] else [])
          ++ ["-f", (c.GetInputArg 0).AudioFileFormat, "-i", "pipe:0"]
          ++ ["-filter_complex", splitFilterStr c]
          ++ ["-map", "[left]", "-ar", goInt (c.GetOutputArg 0).SampleRate,
              "-f", (c.GetOutputArg 0).AudioFileFormat, "pipe:1"]) []
      simp [buildSplitArgs, List.append_assoc]
  · intro c fin fout h1 h2
    unfold file.buildConvertArgs
    rw [h1, h2]
    refine ⟨_, rfl, ?_⟩
    apply withinList_of_eq _ _
      (["-y"] ++ BuildInputArgs (c.GetInputArg 0) fin
        ++ (if c.GetFilterString ≠ "" then ["-af", c.GetFilterString] else [])) []
    simp [List.append_assoc]
  · intro c fin f0 f1 h1 h2 h3
    unfold file.buildSplitArgs
    rw [h1, h2, h3]
    refine ⟨_, rfl, ?_, ?_⟩
    · apply withinList_of_eq _ _
        (["-y"] ++ BuildInputArgs (c.GetInputArg 0) fin
          ++ ["-filter_complex", (BuildFilterComplex c).1]
          ++ ["-map", (BuildFilterComplex c).2.getD 0 ""])
        (["-map", (BuildFilterComplex c).2.getD 1 ""] ++ BuildOutputArgs (c.GetOutputArg 1) f1)
      simp [List.append_assoc]
    · apply withinList_of_eq _ _
        (["-y"] ++ BuildInputArgs (c.GetInputArg 0) fin
          ++ ["-filter_complex", (BuildFilterComplex c).1]
          ++ ["-map", (BuildFilterComplex c).2.getD 0 ""]
          ++ BuildOutputArgs (c.GetOutputArg 0) f0
          ++ ["-map", (BuildFilterComplex c).2.getD 1 ""]) []
      simp [List.append_assoc]
  · intro c f0 h1
    unfold file.buildMergeArgs
    rw [h1]
    refine ⟨_, rfl, ?_⟩
    apply withinList_of_eq _ _
      (["-y"] ++ (c.InputFiles.mapIdx fun i p => BuildInputArgs (c.GetInputArg i) p).flatten
        ++ ["-filter_complex", (BuildFilterComplex c).1, "-map", (BuildFilterComplex c).2.getD 0 ""]) []
    simp [List.append_assoc]

open formats stream fixtures in
/-- Counterexample for C3 as stated: the repository's (validated) split test
configuration, built in stream mode, yields an argument vector containing no
`-ac` at all — in particular no explicit channel-count argument for either
output channel. -/
theorem split_output_missing_ac_cex :
    splitConfig.Validate = none ∧ "-ac" ∉ buildSplitArgs splitConfig fastArgs := by decide

open formats seq fixtures in
/-- Witness for C3: the file-mode convert builder on the repository's file
test configuration emits the full explicit output block. -/
theorem output_args_policy_witness :
    ∃ A, file.buildConvertArgs testConfigFiles = some A ∧
      withinList
        (BuildOutputArgs (testConfigFiles.GetOutputArg 0) "./example/sample_data/out-one-8kHz.pcm")
        A = true :=
  output_args_policy.2.2.2.2.2.1 testConfigFiles _ _ rfl rfl

open formats stream seq fixtures in
/-- C4 (amended): in stream mode, `buildSplitArgs`'s filter graph splits the
stereo input by channel layout and applies an `aresample` stage on each leg
targeting that leg's respective output sample rate, and the expression is
passed via `-filter_complex`; the shared file-mode builder
`BuildFilterComplex`, by contrast, applies only a pass-through `anull`
stage (or the custom filter) on each leg and contains NO resample stage —
file mode defers resampling to the per-output `-ar` arguments. -/
theorem split_filter_resample_policy (c : AudioConfig) (h : c.OpType = CHANNELSPLIT) :
    withinStr "channelsplit=channel_layout=stereo" (splitFilterStr c) ∧
    withinStr ("[l]aresample=" ++ goInt (c.GetOutputArg 0).SampleRate) (splitFilterStr c) ∧
    withinStr ("[r]aresample=" ++ goInt (c.GetOutputArg 1).SampleRate) (splitFilterStr c) ∧
    withinList ["-filter_complex", splitFilterStr c] (buildSplitArgs c fastArgs) = true ∧
    (c.GetFilterString = "" →
      (BuildFilterComplex c).1 =
          "[0:a]channelsplit=channel_layout=stereo[l][r]; [l]anull[left]; [r]anull[right]" ∧
        (BuildFilterComplex c).2 = ["[left]", "[right]"]) := by
  have hsplitL :
      ("[0:a]channelsplit=channel_layout=stereo[l][r]; [l]aresample=" : String).toList
        = ("[0:a]channelsplit=channel_layout=stereo[l][r]; " : String).toList
            ++ ("[l]aresample=" : String).toList := by decide
  have hsplitR :
      ("[left]; [r]aresample=" : String).toList
        = ("[left]; " : String).toList ++ ("[r]aresample=" : String).toList := by decide
  refine ⟨?_, ?_, ?_, ?_, fun hcf => ?_⟩
  · unfold withinStr
    have hL : (splitFilterStr c).toList
        = ("[0:a]channelsplit=channel_layout=stereo[l][r]; [l]aresample=" : String).toList
            ++ ((goInt (c.GetOutputArg 0).SampleRate).toList
              ++ (("[left]; [r]aresample=" : String).toList
                ++ ((goInt (c.GetOutputArg 1).SampleRate).toList
                  ++ ("[right]" : String).toList))) := by
      simp [splitFilterStr, str_toList_append, List.append_assoc]
    rw [hL]
    exact withinList_append_right _ _ _ (by decide)
  · unfold withinStr
    rw [str_toList_append]
    apply withinList_of_eq _ _
      (("[0:a]channelsplit=channel_layout=stereo[l][r]; " : String).toList)
      ((("[left]; [r]aresample=" : String).toList
        ++ ((goInt (c.GetOutputArg 1).SampleRate).toList ++ ("[right]" : String).toList)))
    simp [splitFilterStr, str_toList_append, hsplitL, List.append_assoc]
  · unfold withinStr
    rw [str_toList_append]
    apply withinList_of_eq _ _
      (("[0:a]channelsplit=channel_layout=stereo[l][r]; [l]aresample=" : String).toList
        ++ ((goInt (c.GetOutputArg 0).SampleRate).toList ++ ("[left]; " : String).toList))
      (("[right]" : String).toList)
    simp [splitFilterStr, str_toList_append, hsplitR, List.append_assoc]
  · apply withinList_of_eq _ _
      (fastArgs
        ++ (if IsRawPCM (c.GetInputArg 0).AudioFileFormat then
          ["-ar", goInt (c.GetInputArg 0).SampleRate, "-ac", goInt (c.GetInputArg 0).Channels] else [])
        ++ ["-f", (c.GetInputArg 0).AudioFileFormat, "-i", "pipe:0"])
      (["-map", "[left]", "-ar", goInt (c.GetOutputArg 0).SampleRate,
          "-f", (c.GetOutputArg 0).AudioFileFormat, "pipe:1"]
        ++ ["-map", "[right]", "-ar", goInt (c.GetOutputArg 1).SampleRate,
            "-f", (c.GetOutputArg 1).AudioFileFormat, "pipe:3"])
    simp [buildSplitArgs, List.append_assoc]
  · constructor
    · simp [BuildFilterComplex, h, hcf]
    · simp [BuildFilterComplex, h, hcf]

open formats fixtures seq in
/-- Counterexample for C4 as stated: for the repository's (validated) split
test configuration the file-mode filter graph built by `BuildFilterComplex`
contains no `aresample` stage at all — the legs are `anull` pass-throughs,
so the filter graph does not resample either leg to its output rate. -/
theorem split_filter_no_resample_cex :
    splitConfig.Validate = none ∧
      withinList ("aresample" : String).toList
        ((BuildFilterComplex splitConfig).1.toList) = false := by decide

open formats stream seq fixtures in
/-- Witness for C4: the stream-mode split filter of the repository's split
test configuration contains the channel-layout split stage. -/
theorem split_filter_resample_policy_witness :
    withinStr "channelsplit=channel_layout=stereo" (splitFilterStr splitConfig) :=
  (split_filter_resample_policy splitConfig rfl).1
